import Mathlib

/-
Verification of the infinite-pong simulation kernel (src/main.rs).

The embedding follows the source: the `Layer` enumeration, the
`CollisionLayers` pair (memberships, masks) with bevy_xpbd's symmetric
interaction test, the startup construction of the 32 by 18 tile grid,
the two ball bundles, the outer wall, and the `ball_collision` system
that flips tile texture indices and collision layers on contact.
Positions and sizes use `Rat`: every constant in the source (16.0, 7.5,
200.0 and the integer-division products) is exactly representable, and
the startup arithmetic on them is exact in f32.
-/

namespace InfinitePong

/-- The `Layer` enum from the source (derive PhysicsLayer). -/
inductive Layer where
  | Player1
  | Player2
  | All
deriving DecidableEq, Repr

/-- bevy_xpbd collision layers: a memberships set and a masks
(acceptance) set, modelled as the literal lists the source passes to
`CollisionLayers::new`. -/
structure CollisionLayers where
  memberships : List Layer
  masks : List Layer
deriving DecidableEq, Repr

/-- Constructor `CollisionLayers::new(memberships, masks)`. -/
def CollisionLayers.new (memberships masks : List Layer) : CollisionLayers :=
  ⟨memberships, masks⟩

/-- bevy_xpbd's interaction test between two layer pairs: the membership
bits of each must intersect the mask bits of the other (symmetric
conjunction, `(a.groups & b.masks) != 0 && (b.groups & a.masks) != 0`). -/
def CollisionLayers.interacts_with (a b : CollisionLayers) : Bool :=
  (a.memberships.any fun l => b.masks.contains l) &&
  (b.memberships.any fun l => a.masks.contains l)

/-- Value `map_size.x` in `startup`. -/
def map_size_x : Nat := 32

/-- Value `map_size.y` in `startup`. -/
def map_size_y : Nat := 18

/-- Value `tile_size.x` in `startup`. -/
def tile_size_x : Rat := 16

/-- Value `tile_size.y` in `startup`. -/
def tile_size_y : Rat := 16

/-- A tile's mutable state: the pair of components the `ball_collision`
query reads, `TileTextureIndex` and `CollisionLayers`. -/
structure Tile where
  texture_index : Nat
  layers : CollisionLayers
deriving DecidableEq, Repr

/-- The tile spawned by `startup` at grid column `x`: texture index 0 and
layers ({Player1}, {Player2}) when `x < map_size.x / 2`, texture index 1
and layers ({Player2}, {Player1}) otherwise. -/
def startup_tile (x : Nat) : Tile :=
  { texture_index := if x < map_size_x / 2 then 0 else 1
  , layers :=
      if x < map_size_x / 2 then
        CollisionLayers.new [Layer.Player1] [Layer.Player2]
      else
        CollisionLayers.new [Layer.Player2] [Layer.Player1] }

/-- The match in `ball_collision`: texture index 0 becomes 1 with layers
({Player2}, {Player1}); texture index 1 becomes 0 with layers
({Player1}, {Player2}); anything else is left unchanged. -/
def flip_tile (t : Tile) : Tile :=
  match t.texture_index with
  | 0 => ⟨1, CollisionLayers.new [Layer.Player2] [Layer.Player1]⟩
  | 1 => ⟨0, CollisionLayers.new [Layer.Player1] [Layer.Player2]⟩
  | _ => t

/-- Component `RigidBody` values used by the source. -/
inductive RigidBody where
  | Dynamic
  | Static
deriving DecidableEq, Repr

/-- The components of a ball bundle spawned in `startup` that the
simulation kernel reads. -/
structure BallBundle where
  transform : Rat × Rat
  rigid_body : RigidBody
  collider_radius : Rat
  linear_velocity : Rat × Rat
  layers : CollisionLayers
deriving DecidableEq, Repr

/-- Value `player_ball_radius` in `startup`. -/
def player_ball_radius : Rat := 7.5

/-- The first (blue) ball spawned in `startup`. -/
def ball_a : BallBundle :=
  { transform := (-(tile_size_x * ((map_size_x / 4 : Nat) : Rat)), 0)
  , rigid_body := RigidBody.Dynamic
  , collider_radius := player_ball_radius
  , linear_velocity := (-200, -200)
  , layers := CollisionLayers.new [Layer.Player1] [Layer.Player2, Layer.All] }

/-- The second (green) ball spawned in `startup`. -/
def ball_b : BallBundle :=
  { transform := (tile_size_x * ((map_size_x / 4 : Nat) : Rat), 0)
  , rigid_body := RigidBody.Dynamic
  , collider_radius := player_ball_radius
  , linear_velocity := (200, 200)
  , layers := CollisionLayers.new [Layer.Player2] [Layer.Player1, Layer.All] }

/-- `size` in `startup`: half the field extents. -/
def wall_half_size : Rat × Rat :=
  ((map_size_x : Rat) * tile_size_x / 2, (map_size_y : Rat) * tile_size_y / 2)

/-- The polyline vertices of the outer wall spawned in `startup`. -/
def wall_vertices : List (Rat × Rat) :=
  [ (-wall_half_size.1, -wall_half_size.2)
  , (-wall_half_size.1, wall_half_size.2)
  , (wall_half_size.1, wall_half_size.2)
  , (wall_half_size.1, -wall_half_size.2) ]

/-- The wall's collision layers in `startup`. -/
def wall_layers : CollisionLayers :=
  CollisionLayers.new [Layer.All] [Layer.Player1, Layer.Player2]

/-- The spec's team vocabulary: team A renders texture index 0, team B
texture index 1. -/
inductive Team where
  | A
  | B
deriving DecidableEq, Fintype, Repr

/-- The opposing team. -/
def Team.opposite : Team → Team
  | .A => .B
  | .B => .A

/-- The collision layers `startup` gives a ball of each team. -/
def ball_layers : Team → CollisionLayers
  | .A => CollisionLayers.new [Layer.Player1] [Layer.Player2, Layer.All]
  | .B => CollisionLayers.new [Layer.Player2] [Layer.Player1, Layer.All]

/-- The collision layers a tile of each team carries in the source. -/
def team_tile_layers : Team → CollisionLayers
  | .A => CollisionLayers.new [Layer.Player1] [Layer.Player2]
  | .B => CollisionLayers.new [Layer.Player2] [Layer.Player1]

/-- The team a tile's texture index renders: 0 is team A, 1 is team B. -/
def tile_team (t : Tile) : Option Team :=
  match t.texture_index with
  | 0 => some Team.A
  | 1 => some Team.B
  | _ => none

/-- The tile invariant: texture index and collision layers agree on a
team. -/
def tile_consistent (t : Tile) : Prop :=
  (t.texture_index = 0 ∧
      t.layers = CollisionLayers.new [Layer.Player1] [Layer.Player2]) ∨
  (t.texture_index = 1 ∧
      t.layers = CollisionLayers.new [Layer.Player2] [Layer.Player1])

/-- An entity's components, as the `ball_collision` system can observe
them: the tile components are optional (the wall and the balls lack
`TileTextureIndex`), and the kinematic state is carried along to state
frame conditions. -/
structure EntityData where
  texture_index : Option Nat
  layers : Option CollisionLayers
  transform : Option (Rat × Rat)
  linear_velocity : Option (Rat × Rat)
  is_ball : Bool
deriving DecidableEq, Repr

/-- The body of `ball_collision`'s inner loop for one colliding entity:
`tiles.get_mut(*entity)` succeeds exactly when the entity has both a
`TileTextureIndex` and a `CollisionLayers`, and then the match rewrites
both together; otherwise the entity is untouched. -/
def flip_entity (e : EntityData) : EntityData :=
  match e.texture_index, e.layers with
  | some ti, some ly =>
      let t := flip_tile ⟨ti, ly⟩
      { e with texture_index := some t.texture_index, layers := some t.layers }
  | _, _ => e

/-- The world the flip pass acts on: entity id to components. -/
def World : Type := Nat → EntityData

/-- Writing one entity back into the world. -/
def set_entity (w : World) (id : Nat) (e : EntityData) : World :=
  fun i => if i = id then e else w i

/-- One iteration of `ball_collision`'s inner loop: look the colliding
entity up in the tile query and flip it when the query matches. -/
def process_colliding_entity (w : World) (id : Nat) : World :=
  if ((w id).texture_index.isSome && (w id).layers.isSome) = true then
    set_entity w id (flip_entity (w id))
  else w

/-- One iteration of `ball_collision`'s outer loop: skip a ball whose
`CollidingEntities` is empty, otherwise process each colliding entity in
list order. -/
def ball_collision_step (w : World) (colliding_entities : List Nat) : World :=
  if colliding_entities.isEmpty then w
  else colliding_entities.foldl process_colliding_entity w

/-- The whole `ball_collision` system for one tick: the balls'
`CollidingEntities` lists in query order. -/
def ball_collision (w : World) (balls : List (List Nat)) : World :=
  balls.foldl ball_collision_step w

/-- A concrete world for the double-hit scenario: every entity is a
team-B tile (texture index 1 with the matching layers). -/
def double_hit_world : World :=
  fun _ =>
    { texture_index := some 1
    , layers := some (CollisionLayers.new [Layer.Player2] [Layer.Player1])
    , transform := none
    , linear_velocity := none
    , is_ball := false }

/-- A world entity carrying consistent tile components: the texture index
and the collision layers agree on a team. -/
def entity_tile_consistent (e : EntityData) : Prop :=
  (e.texture_index = some 0 ∧
      e.layers = some (CollisionLayers.new [Layer.Player1] [Layer.Player2])) ∨
  (e.texture_index = some 1 ∧
      e.layers = some (CollisionLayers.new [Layer.Player2] [Layer.Player1]))

/-- Frame condition between the world before and after a pass, at one
entity: kinematic state and the ball marker are untouched, and an entity
missing either tile component is untouched altogether. -/
def frame_preserved (w w' : World) (j : Nat) : Prop :=
  (w' j).transform = (w j).transform ∧
  (w' j).linear_velocity = (w j).linear_velocity ∧
  (w' j).is_ball = (w j).is_ball ∧
  ((w j).texture_index = none ∨ (w j).layers = none → w' j = w j)

lemma flip_entity_some (ti : Nat) (ly : CollisionLayers)
    (tr lv : Option (Rat × Rat)) (ib : Bool) :
    flip_entity ⟨some ti, some ly, tr, lv, ib⟩ =
      ⟨some (flip_tile ⟨ti, ly⟩).texture_index,
        some (flip_tile ⟨ti, ly⟩).layers, tr, lv, ib⟩ := rfl

lemma flip_entity_frame (e : EntityData) :
    (flip_entity e).transform = e.transform ∧
    (flip_entity e).linear_velocity = e.linear_velocity ∧
    (flip_entity e).is_ball = e.is_ball := by
  obtain ⟨a, b, c, d, f⟩ := e
  cases a <;> cases b <;> exact ⟨rfl, rfl, rfl⟩

lemma flip_entity_none (e : EntityData)
    (h : e.texture_index = none ∨ e.layers = none) :
    flip_entity e = e := by
  obtain ⟨a, b, c, d, f⟩ := e
  rcases h with h | h <;> dsimp only at h <;> subst h
  · cases b <;> rfl
  · cases a <;> rfl

lemma flip_flip_entity (e : EntityData) (h : entity_tile_consistent e) :
    flip_entity (flip_entity e) = e := by
  obtain ⟨a, b, c, d, f⟩ := e
  simp only [entity_tile_consistent] at h
  rcases h with ⟨h0, h1⟩ | ⟨h0, h1⟩ <;> subst h0 <;> subst h1 <;> rfl

lemma flip_entity_ne (e : EntityData) (h : entity_tile_consistent e) :
    flip_entity e ≠ e := by
  obtain ⟨a, b, c, d, f⟩ := e
  simp only [entity_tile_consistent] at h
  rcases h with ⟨h0, h1⟩ | ⟨h0, h1⟩ <;> subst h0 <;> subst h1 <;>
    simp [flip_entity, flip_tile]

lemma flip_entity_keeps_consistent (e : EntityData)
    (h : entity_tile_consistent e) :
    entity_tile_consistent (flip_entity e) := by
  obtain ⟨a, b, c, d, f⟩ := e
  simp only [entity_tile_consistent] at h ⊢
  rcases h with ⟨h0, h1⟩ | ⟨h0, h1⟩ <;> subst h0 <;> subst h1
  · exact Or.inr ⟨rfl, rfl⟩
  · exact Or.inl ⟨rfl, rfl⟩

lemma process_apply (w : World) (i j : Nat) :
    (process_colliding_entity w i) j = w j ∨
    (j = i ∧ (process_colliding_entity w i) j = flip_entity (w i)) := by
  unfold process_colliding_entity set_entity
  split
  · by_cases hj : j = i
    · exact Or.inr ⟨hj, by simp [hj]⟩
    · exact Or.inl (by simp [hj])
  · exact Or.inl rfl

lemma process_at_self (w : World) (i : Nat)
    (h : ((w i).texture_index.isSome && (w i).layers.isSome) = true) :
    (process_colliding_entity w i) i = flip_entity (w i) := by
  simp [process_colliding_entity, set_entity, h]

lemma process_pointwise (P : EntityData → Prop)
    (hP : ∀ e, P e → P (flip_entity e))
    (w : World) (i j : Nat) (h : P (w j)) :
    P ((process_colliding_entity w i) j) := by
  rcases process_apply w i j with hp | ⟨hj, hp⟩
  · rw [hp]; exact h
  · subst hj; rw [hp]; exact hP (w j) h

lemma foldl_pointwise (P : EntityData → Prop)
    (hP : ∀ e, P e → P (flip_entity e))
    (ids : List Nat) (w : World) (j : Nat) (h : P (w j)) :
    P ((ids.foldl process_colliding_entity w) j) := by
  induction ids generalizing w with
  | nil => exact h
  | cons i ids ih =>
      exact ih (process_colliding_entity w i)
        (process_pointwise P hP w i j h)

lemma step_pointwise (P : EntityData → Prop)
    (hP : ∀ e, P e → P (flip_entity e))
    (w : World) (ids : List Nat) (j : Nat) (h : P (w j)) :
    P ((ball_collision_step w ids) j) := by
  unfold ball_collision_step
  split
  · exact h
  · exact foldl_pointwise P hP ids w j h

lemma ball_collision_pointwise (P : EntityData → Prop)
    (hP : ∀ e, P e → P (flip_entity e))
    (w : World) (balls : List (List Nat)) (j : Nat) (h : P (w j)) :
    P ((ball_collision w balls) j) := by
  induction balls generalizing w with
  | nil => exact h
  | cons ids balls ih =>
      exact ih (ball_collision_step w ids)
        (step_pointwise P hP w ids j h)

lemma frame_preserved_refl (w : World) (j : Nat) : frame_preserved w w j :=
  ⟨rfl, rfl, rfl, fun _ => rfl⟩

lemma frame_preserved_trans {w1 w2 w3 : World} {j : Nat}
    (h12 : frame_preserved w1 w2 j) (h23 : frame_preserved w2 w3 j) :
    frame_preserved w1 w3 j := by
  obtain ⟨t12, v12, b12, n12⟩ := h12
  obtain ⟨t23, v23, b23, n23⟩ := h23
  refine ⟨t23.trans t12, v23.trans v12, b23.trans b12, fun hn => ?_⟩
  have h2 : w2 j = w1 j := n12 hn
  have hn2 : (w2 j).texture_index = none ∨ (w2 j).layers = none := by
    rw [h2]; exact hn
  rw [n23 hn2, h2]

lemma process_frame (w : World) (i j : Nat) :
    frame_preserved w (process_colliding_entity w i) j := by
  rcases process_apply w i j with hp | ⟨hj, hp⟩
  · exact ⟨by rw [hp], by rw [hp], by rw [hp], fun _ => hp⟩
  · subst hj
    obtain ⟨ht, hv, hb⟩ := flip_entity_frame (w j)
    refine ⟨by rw [hp, ht], by rw [hp, hv], by rw [hp, hb], fun hn => ?_⟩
    rw [hp, flip_entity_none (w j) hn]

lemma foldl_frame (ids : List Nat) (w : World) (j : Nat) :
    frame_preserved w (ids.foldl process_colliding_entity w) j := by
  induction ids generalizing w with
  | nil => exact frame_preserved_refl w j
  | cons i ids ih =>
      exact frame_preserved_trans (process_frame w i j)
        (ih (process_colliding_entity w i))

lemma step_frame (w : World) (ids : List Nat) (j : Nat) :
    frame_preserved w (ball_collision_step w ids) j := by
  unfold ball_collision_step
  split
  · exact frame_preserved_refl w j
  · exact foldl_frame ids w j

lemma ball_collision_frame (balls : List (List Nat)) (w : World) (j : Nat) :
    frame_preserved w (ball_collision w balls) j := by
  induction balls generalizing w with
  | nil => exact frame_preserved_refl w j
  | cons ids balls ih =>
      exact frame_preserved_trans (step_frame w ids j)
        (ih (ball_collision_step w ids))

/-- C1 counterexample: the symmetric-conjunction filter check on the two
balls as constructed at startup does not evaluate to false — ball A's
membership {Player1} meets ball B's acceptance {Player1, All} and ball
B's membership {Player2} meets ball A's acceptance {Player2, All}. -/
theorem ball_ball_filter_not_false :
    ¬ CollisionLayers.interacts_with ball_a.layers ball_b.layers = false := by
  decide

/-- C1 (amended): for the two balls as constructed at startup, the
symmetric-conjunction filter check accepts(ball A's filter, ball B's
filter) evaluates to true: the filter does not exclude the ball-ball
contact pair. -/
theorem ball_ball_filter_accepts :
    CollisionLayers.interacts_with ball_a.layers ball_b.layers = true := by
  decide

/-- C2 counterexample: in a world whose entity 0 is a team-B tile hit by
both balls in the same tick (colliding lists [[0], [0]]), the pass
applies both contacts: the result's texture index is 1, whereas
processing only the first ball's contact gives texture index 0, so the
second contact is not dropped and the tile does not end the tick on the
first ball's team. -/
theorem double_hit_second_contact_applies :
    ((ball_collision double_hit_world [[0], [0]]) 0).texture_index = some 1 ∧
    ((ball_collision double_hit_world [[0]]) 0).texture_index = some 0 ∧
    ¬ ((ball_collision double_hit_world [[0], [0]]) 0).texture_index =
        some 0 := by
  decide

/-- C2 (amended): if the same tile appears in the colliding-entity lists
of both balls in the same tick, the tile-flip pass applies both contacts
in list order: the second contact flips the tile a second time, so the
tile ends the tick back in its starting state — the second ball's team —
and the outcome differs from processing the first contact alone. -/
theorem double_hit_flips_twice (w : World) (i : Nat)
    (h : entity_tile_consistent (w i)) :
    (ball_collision w [[i], [i]]) i = w i ∧
    (ball_collision w [[i], [i]]) i ≠ (ball_collision w [[i]]) i := by
  have hc : ((w i).texture_index.isSome && (w i).layers.isSome) = true := by
    rcases h with ⟨h0, h1⟩ | ⟨h0, h1⟩ <;> rw [h0, h1] <;> rfl
  have e2 : ball_collision w [[i], [i]] =
      process_colliding_entity (process_colliding_entity w i) i := rfl
  have e1 : ball_collision w [[i]] = process_colliding_entity w i := rfl
  have hp1 : (process_colliding_entity w i) i = flip_entity (w i) :=
    process_at_self w i hc
  have hc2 : (((process_colliding_entity w i) i).texture_index.isSome &&
      ((process_colliding_entity w i) i).layers.isSome) = true := by
    rw [hp1]
    rcases flip_entity_keeps_consistent (w i) h with ⟨h0, h1⟩ | ⟨h0, h1⟩ <;>
      rw [h0, h1] <;> rfl
  have hp2 : (process_colliding_entity (process_colliding_entity w i) i) i =
      flip_entity ((process_colliding_entity w i) i) :=
    process_at_self (process_colliding_entity w i) i hc2
  have hmain : (ball_collision w [[i], [i]]) i = w i := by
    rw [e2, hp2, hp1]
    exact flip_flip_entity (w i) h
  refine ⟨hmain, ?_⟩
  rw [hmain, e1, hp1]
  exact (flip_entity_ne (w i) h).symm

/-- C2 witness: the amended double-hit behaviour at the concrete
double-hit world and tile entity 0. -/
theorem double_hit_flips_twice_witness :
    (ball_collision double_hit_world [[0], [0]]) 0 = double_hit_world 0 ∧
    (ball_collision double_hit_world [[0], [0]]) 0 ≠
      (ball_collision double_hit_world [[0]]) 0 :=
  double_hit_flips_twice double_hit_world 0 (Or.inr ⟨rfl, rfl⟩)

/-- C3: the symmetric-conjunction filter accepts a (ball, tile) pair
exactly when the tile's team is the opposite of the ball's team, and a
ball always interacts with the wall. -/
theorem ball_tile_filter_iff :
    ∀ b t : Team,
      (CollisionLayers.interacts_with (ball_layers b) (team_tile_layers t) =
          true ↔ t = b.opposite) ∧
      CollisionLayers.interacts_with (ball_layers b) wall_layers = true := by
  decide

/-- C4: every tile's collision filter is consistent with its team — at
startup in every grid column, across a single flip, and across a whole
tile-flip pass at every entity carrying tile components. -/
theorem tile_filter_team_consistent :
    (∀ x : Nat, tile_consistent (startup_tile x)) ∧
    (∀ t : Tile, tile_consistent t → tile_consistent (flip_tile t)) ∧
    ∀ (w : World) (balls : List (List Nat)) (j : Nat),
      entity_tile_consistent (w j) →
      entity_tile_consistent ((ball_collision w balls) j) := by
  refine ⟨?_, ?_, ?_⟩
  · intro x
    by_cases h : x < map_size_x / 2
    · exact Or.inl ⟨by simp [startup_tile, h], by simp [startup_tile, h]⟩
    · exact Or.inr ⟨by simp [startup_tile, h], by simp [startup_tile, h]⟩
  · intro t h
    obtain ⟨ti, ly⟩ := t
    rcases h with ⟨h0, h1⟩ | ⟨h0, h1⟩ <;> subst h0 <;> subst h1
    · exact Or.inr ⟨rfl, rfl⟩
    · exact Or.inl ⟨rfl, rfl⟩
  · intro w balls j h
    exact ball_collision_pointwise entity_tile_consistent
      flip_entity_keeps_consistent w balls j h

/-- C5: a contact processed by the flip pass against a tile of the team
opposite to the ball's sets that tile to the ball's team. -/
theorem flip_sets_ball_team (b : Team) (t : Tile)
    (h : tile_team t = some b.opposite) :
    tile_team (flip_tile t) = some b := by
  obtain ⟨ti, ly⟩ := t
  rcases ti with _ | _ | n <;> cases b <;>
    simp_all [tile_team, flip_tile, Team.opposite]

/-- C5 witness: flipping a team-B tile observed by the team-A ball sets
it to team A. -/
theorem flip_sets_ball_team_witness :
    tile_team
        (flip_tile ⟨1, CollisionLayers.new [Layer.Player2] [Layer.Player1]⟩) =
      some Team.A :=
  flip_sets_ball_team Team.A
    ⟨1, CollisionLayers.new [Layer.Player2] [Layer.Player1]⟩ rfl

/-- C6: the tile flip is an involution on consistent tiles, and the team
model satisfies opposite(opposite(t)) = t. -/
theorem flip_tile_involution :
    (∀ t : Tile, tile_consistent t → flip_tile (flip_tile t) = t) ∧
    ∀ b : Team, b.opposite.opposite = b := by
  constructor
  · intro t h
    obtain ⟨ti, ly⟩ := t
    rcases h with ⟨h0, h1⟩ | ⟨h0, h1⟩ <;> subst h0 <;> subst h1 <;> rfl
  · intro b
    cases b <;> rfl

/-- C7: the grid is 32 by 18 and a startup tile is the team-A tile
(texture index 0, membership {Player1}, acceptance {Player2}) exactly
when its column is below map_size.x / 2 = 16, and the team-B tile
(texture index 1, membership {Player2}, acceptance {Player1})
otherwise. -/
theorem initial_grid_halves :
    map_size_x = 32 ∧ map_size_y = 18 ∧ map_size_x / 2 = 16 ∧
    ∀ x : Nat,
      (startup_tile x =
          ⟨0, CollisionLayers.new [Layer.Player1] [Layer.Player2]⟩ ↔
        x < map_size_x / 2) ∧
      (startup_tile x =
          ⟨1, CollisionLayers.new [Layer.Player2] [Layer.Player1]⟩ ↔
        ¬ x < map_size_x / 2) := by
  refine ⟨rfl, rfl, rfl, fun x => ?_⟩
  by_cases h : x < map_size_x / 2 <;>
    simp [startup_tile, h, CollisionLayers.new]

/-- C8: ball A starts at (-128, 0) = (-tile_size.x * (map_size.x / 4), 0)
with velocity (-200, -200), ball B at (128, 0) with velocity (200, 200),
both dynamic circles of radius 7.5, and the wall's vertices are the four
corners (plus or minus 256, plus or minus 144), symmetric about the
origin. -/
theorem startup_ball_placement :
    ball_a.transform = (-128, 0) ∧
    ball_a.transform = (-(tile_size_x * ((map_size_x / 4 : Nat) : Rat)), 0) ∧
    ball_a.linear_velocity = (-200, -200) ∧
    ball_a.rigid_body = RigidBody.Dynamic ∧
    ball_a.collider_radius = 7.5 ∧
    ball_b.transform = (128, 0) ∧
    ball_b.linear_velocity = (200, 200) ∧
    ball_b.rigid_body = RigidBody.Dynamic ∧
    ball_b.collider_radius = 7.5 ∧
    wall_vertices = [(-256, -144), (-256, 144), (256, 144), (256, -144)] := by
  refine ⟨?_, rfl, rfl, rfl, rfl, ?_, rfl, rfl, rfl, ?_⟩ <;>
    norm_num [ball_a, ball_b, tile_size_x, tile_size_y, map_size_x,
      map_size_y, wall_vertices, wall_half_size]

/-- C9: the tile-flip pass touches only entities carrying both a tile
texture index and collision layers: every entity's transform, linear
velocity and ball marker are unchanged, and an entity missing either
tile component — the wall or a ball — is unchanged altogether. -/
theorem flip_pass_frame_effect (w : World) (balls : List (List Nat))
    (j : Nat) :
    ((ball_collision w balls) j).transform = (w j).transform ∧
    ((ball_collision w balls) j).linear_velocity = (w j).linear_velocity ∧
    ((ball_collision w balls) j).is_ball = (w j).is_ball ∧
    ((w j).texture_index = none ∨ (w j).layers = none →
      (ball_collision w balls) j = w j) :=
  ball_collision_frame balls w j

/-- C10: texture indices stay in {0, 1}: startup assigns only 0 or 1, the
flip maps 0 to 1 and 1 to 0, the catch-all branch leaves an entity with
any other texture index unchanged, and a whole flip pass preserves a
texture index in {0, 1} at every entity. -/
theorem texture_index_zero_or_one :
    (∀ x : Nat,
      (startup_tile x).texture_index = 0 ∨
        (startup_tile x).texture_index = 1) ∧
    (∀ t : Tile,
      (t.texture_index = 0 → (flip_tile t).texture_index = 1) ∧
      (t.texture_index = 1 → (flip_tile t).texture_index = 0)) ∧
    (∀ (e : EntityData) (ti : Nat),
      e.texture_index = some ti → ti ≠ 0 → ti ≠ 1 → flip_entity e = e) ∧
    ∀ (w : World) (balls : List (List Nat)) (j : Nat),
      (w j).texture_index = some 0 ∨ (w j).texture_index = some 1 →
      ((ball_collision w balls) j).texture_index = some 0 ∨
        ((ball_collision w balls) j).texture_index = some 1 := by
  refine ⟨?_, ?_, ?_, ?_⟩
  · intro x
    by_cases h : x < map_size_x / 2
    · exact Or.inl (by simp [startup_tile, h])
    · exact Or.inr (by simp [startup_tile, h])
  · intro t
    obtain ⟨ti, ly⟩ := t
    constructor
    · intro h
      dsimp only at h
      subst h
      rfl
    · intro h
      dsimp only at h
      subst h
      rfl
  · intro e ti h h0 h1
    obtain ⟨a, b, c, d, f⟩ := e
    dsimp only at h
    subst h
    cases b with
    | none => rfl
    | some ly =>
        rcases ti with _ | _ | n
        · exact absurd rfl h0
        · exact absurd rfl h1
        · rfl
  · intro w balls j h
    refine ball_collision_pointwise
      (fun e => e.texture_index = some 0 ∨ e.texture_index = some 1)
      ?_ w balls j h
    intro e he
    obtain ⟨a, b, c, d, f⟩ := e
    rcases he with he | he <;> dsimp only at he <;> subst he <;> cases b
    · exact Or.inl rfl
    · exact Or.inr rfl
    · exact Or.inr rfl
    · exact Or.inl rfl

end InfinitePong
